import Mathlib

/-!
Verification of the `weekly-recipes` repository against its specification.

The repository is a single-page application whose core is the React component
`src/components/RecipeApiDemo.tsx`.  We give a shallow embedding of that
component: its three pieces of outcome state (`isLoading`, `result`, `error`)
plus the backend address, the derived endpoint set, the `callApi` helper
(split into its synchronous prefix and its resolution), the three button
handlers, and the rendering of the loading / error / result blocks.

JavaScript values stored in `result` are modelled by a `Json` inductive; the
initial `null` of `useState<unknown>(null)` and a parsed JSON `null` are the
same JavaScript value, so `result` is a `Json` whose `Json.null` constructor
plays both roles.  `JSON.stringify(v, null, space)` (used both for the POST
body, space absent, and for `PrettyJson`, space = 2) is modelled by
`stringifyVal`, following the ECMAScript serialization algorithm for the
values representable in `Json`.
-/

/-- JavaScript JSON values (numbers restricted to integers, which covers every
literal occurring in the component). -/
inductive Json where
  | null : Json
  | bool : Bool → Json
  | num : Int → Json
  | str : String → Json
  | arr : List Json → Json
  | obj : List (String × Json) → Json
deriving Repr

/-- Lower-case hexadecimal digit, as produced by `JSON.stringify` escapes. -/
def hexDigitChar (n : Nat) : Char :=
  if n < 10 then Char.ofNat (48 + n) else Char.ofNat (87 + n)

/-- Escape of one character inside a JSON string literal, following the
ECMAScript `QuoteJSONString` algorithm. -/
def escapeJsonChar (c : Char) : String :=
  if c = '\"' then "\\\""
  else if c = '\\' then "\\\\"
  else if c = '\n' then "\\n"
  else if c = '\r' then "\\r"
  else if c = '\t' then "\\t"
  else if c = Char.ofNat 8 then "\\b"
  else if c = Char.ofNat 12 then "\\f"
  else if c.toNat < 32 then
    "\\u00" ++ String.singleton (hexDigitChar (c.toNat / 16))
      ++ String.singleton (hexDigitChar (c.toNat % 16))
  else String.singleton c

/-- JSON string literal quoting (ECMAScript `QuoteJSONString`). -/
def quoteJsonString (s : String) : String :=
  "\"" ++ String.join (s.data.map escapeJsonChar) ++ "\""

mutual

/-- `JSON.stringify(v, null, space)` where `gap` is the accumulated space
string (`""` when space is absent, `"  "` for space = 2) and `indent` is the
current indentation, following the ECMAScript `SerializeJSONProperty`
algorithm. -/
def stringifyVal (gap indent : String) : Json → String
  | Json.null => "null"
  | Json.bool b => cond b "true" "false"
  | Json.num n => toString n
  | Json.str s => quoteJsonString s
  | Json.arr xs =>
      if xs.isEmpty then "[]"
      else
        let ind := indent ++ gap
        let items := stringifyArr gap ind xs
        if gap = "" then "[" ++ String.intercalate "," items ++ "]"
        else "[\n" ++ ind ++ String.intercalate (",\n" ++ ind) items ++ "\n" ++ indent ++ "]"
  | Json.obj fs =>
      if fs.isEmpty then "\x7b\x7d"
      else
        let ind := indent ++ gap
        let items := stringifyObj gap ind fs
        if gap = "" then "\x7b" ++ String.intercalate "," items ++ "\x7d"
        else "\x7b\n" ++ ind ++ String.intercalate (",\n" ++ ind) items ++ "\n" ++ indent ++ "\x7d"

/-- Serialized elements of a JSON array. -/
def stringifyArr (gap ind : String) : List Json → List String
  | [] => []
  | x :: xs => stringifyVal gap ind x :: stringifyArr gap ind xs

/-- Serialized members of a JSON object (a space follows the colon exactly
when a gap is present, per `SerializeJSONObject`). -/
def stringifyObj (gap ind : String) : List (String × Json) → List String
  | [] => []
  | (k, v) :: fs =>
      (quoteJsonString k ++ ":" ++ (if gap = "" then "" else " ") ++ stringifyVal gap ind v)
        :: stringifyObj gap ind fs

end

/-- `JSON.stringify(v)` with the space argument absent — used for the POST
body at line 110 of `RecipeApiDemo.tsx`. -/
def jsonStringify (v : Json) : String := stringifyVal "" "" v

/-- `JSON.stringify(v, null, 2)` — used by `PrettyJson` (line 18). -/
def jsonStringifyPretty (v : Json) : String := stringifyVal "  " "" v

/-- JavaScript truthiness of a `Json` value, as tested by `result ? … : null`
(line 136) and `error && …` (line 131). -/
def jsTruthy : Json → Bool
  | Json.null => false
  | Json.bool b => b
  | Json.num n => n != 0
  | Json.str s => !s.isEmpty
  | Json.arr _ => true
  | Json.obj _ => true

/-- The component's state: the four `useState` hooks of `RecipeApiDemo`
(lines 26–29).  `result` starts as the JavaScript `null`, modelled by
`Json.null`; `error` starts as `null`, modelled by `none`. -/
structure PanelState where
  backend : String
  isLoading : Bool
  result : Json
  error : Option String
deriving Repr

/-- Initial hook values (lines 26–29): backend is `envBase ?? "http://localhost:3000"`,
nothing is loading, `result` and `error` are null. -/
def initialState (envBase : Option String) : PanelState :=
  { backend := envBase.getD "http://localhost:3000"
    isLoading := false
    result := Json.null
    error := none }

/-- The derived endpoint set (the `useMemo` at lines 31–38), a pure function
of the backend address. -/
structure Endpoints where
  listRecipes : String
  createRecipe : String
  weeklyPlan : String → String

/-- `endpoints` (lines 31–38): template literals over the current backend. -/
def endpoints (backend : String) : Endpoints :=
  { listRecipes := backend ++ "/api/recipes"
    createRecipe := backend ++ "/api/recipes"
    weeklyPlan := fun date => backend ++ "/api/weeks/" ++ date ++ "/plan" }

/-- What `res.json()` resolves to for a received response: either a parsed
JSON value or a decode error whose description is the thrown `SyntaxError`'s
message. -/
inductive JsonReadResult where
  | ok : Json → JsonReadResult
  | decodeError : String → JsonReadResult

/-- Resolution of one `fetch` call: either a response (status, body text and
the outcome of parsing the body as JSON) or a transport error whose
description is the thrown error's message. -/
inductive FetchOutcome where
  | response : Nat → String → JsonReadResult → FetchOutcome
  | transportError : String → FetchOutcome

/-- `Response.ok`: status in the 2xx range (200–299 inclusive). -/
def resOk (status : Nat) : Bool := 200 ≤ status && status ≤ 299

/-- Synchronous prefix of `callApi` (lines 41–42), executed before the
`fetch` suspends: `setIsLoading(true); setError(null)`. -/
def callApiStart (s : PanelState) : PanelState :=
  { s with isLoading := true, error := none }

/-- Resumption of `callApi` (lines 43–58) once the network layer resolves.
On `res.ok` the parsed body is stored via `setResult(json)`; a non-2xx status
throws `Error("HTTP " + status + ": " + text)`; every caught error `e` sets
`error` to `e.message` and `result` to null; the `finally` clears the loading
flag in all branches. -/
def callApiResolve (s : PanelState) (o : FetchOutcome) : PanelState :=
  match o with
  | FetchOutcome.response status text jsonBody =>
      if resOk status then
        match jsonBody with
        | JsonReadResult.ok j =>
            { s with result := j, isLoading := false }
        | JsonReadResult.decodeError desc =>
            { s with error := some desc, result := Json.null, isLoading := false }
      else
        { s with
            error := some ("HTTP " ++ toString status ++ ": " ++ text)
            result := Json.null
            isLoading := false }
  | FetchOutcome.transportError desc =>
      { s with error := some desc, result := Json.null, isLoading := false }

/-- One `callApi` attempt run without interleaving: the synchronous prefix
followed by the resolution. -/
def completeAttempt (s : PanelState) (o : FetchOutcome) : PanelState :=
  callApiResolve (callApiStart s) o

/-- The three action triggers (the three buttons, lines 95–127). -/
inductive PanelAction where
  | listRecipes : PanelAction
  | createRecipe : PanelAction
  | weeklyPlan : PanelAction

/-- The fixed sample date passed to `endpoints.weeklyPlan` (line 124). -/
def sampleDate : String := "2025-08-25"

/-- The fixed sample recipe POSTed by the create button (lines 110–114). -/
def sampleRecipe : Json :=
  Json.obj
    [ ("name", Json.str "Miso Soup")
    , ("steps", Json.str "Boil dashi, add miso.")
    , ("ingredients", Json.arr
        [ Json.obj
            [ ("name", Json.str "miso")
            , ("quantity", Json.num 30)
            , ("unit", Json.str "GRAM") ] ]) ]

/-- An outbound HTTP request as passed to `fetch` (url plus `RequestInit`;
`fetch` defaults to GET when no method is given). -/
structure HttpRequest where
  url : String
  method : String
  headers : List (String × String)
  body : Option String
deriving Repr, DecidableEq

/-- The request each button's `onClick` dispatches, as a function of the
backend address captured when the handler runs (lines 98, 107–115, 124). -/
def actionRequest (backend : String) : PanelAction → HttpRequest
  | PanelAction.listRecipes =>
      { url := (endpoints backend).listRecipes
        method := "GET", headers := [], body := none }
  | PanelAction.createRecipe =>
      { url := (endpoints backend).createRecipe
        method := "POST"
        headers := [("Content-Type", "application/json")]
        body := some (jsonStringify sampleRecipe) }
  | PanelAction.weeklyPlan =>
      { url := (endpoints backend).weeklyPlan sampleDate
        method := "GET", headers := [], body := none }

/-- The UI events the panel reacts to: a write to the backend address (the
dropdown's and the text input's `onChange` both run `setBackend(e.target.value)`,
lines 71 and 89), a button press, and the resolution of an issued request. -/
inductive PanelEvent where
  | setBackend : String → PanelEvent
  | trigger : PanelAction → PanelEvent
  | resolve : FetchOutcome → PanelEvent

/-- Small-step semantics of the panel: each event yields the next state and
the request dispatched by it, if any.  Only `trigger` dispatches a request. -/
def step (s : PanelState) : PanelEvent → PanelState × Option HttpRequest
  | PanelEvent.setBackend v => ({ s with backend := v }, none)
  | PanelEvent.trigger a => (callApiStart s, some (actionRequest s.backend a))
  | PanelEvent.resolve o => (callApiResolve s o, none)

/-- State after a sequence of events. -/
def run (s : PanelState) (es : List PanelEvent) : PanelState :=
  es.foldl (fun t e => (step t e).1) s

/-- What the outcome area of the view shows (lines 130–136): the loading
indicator, the error block when `error` is truthy, and the `PrettyJson`
block when `result` is truthy. -/
structure RenderedView where
  loadingIndicator : Bool
  errorBlock : Option String
  resultBlock : Option String
deriving Repr, DecidableEq

/-- Rendering of the outcome state (lines 130–136); `PrettyJson` shows
`JSON.stringify(data, null, 2)`. -/
def renderPanel (s : PanelState) : RenderedView :=
  { loadingIndicator := s.isLoading
    errorBlock :=
      match s.error with
      | some e => if e.isEmpty then none else some e
      | none => none
    resultBlock :=
      if jsTruthy s.result then some (jsonStringifyPretty s.result) else none }

/-! ### Helper lemmas about one completed attempt -/

/-- A completed attempt on a 2xx response with a parsed body stores the
payload, leaves the error cleared and ends loading. -/
theorem completeAttempt_ok (s : PanelState) (st : Nat) (text : String) (j : Json)
    (h : resOk st = true) :
    completeAttempt s (FetchOutcome.response st text (JsonReadResult.ok j)) =
      { s with result := j, error := none, isLoading := false } := by
  simp [completeAttempt, callApiResolve, callApiStart, h]

/-- A completed attempt on a 2xx response whose body fails to decode stores
the decode error's description and clears the result. -/
theorem completeAttempt_decodeError (s : PanelState) (st : Nat) (text d : String)
    (h : resOk st = true) :
    completeAttempt s (FetchOutcome.response st text (JsonReadResult.decodeError d)) =
      { s with error := some d, result := Json.null, isLoading := false } := by
  simp [completeAttempt, callApiResolve, callApiStart, h]

/-- A completed attempt on a non-2xx response stores the HTTP error message
and clears the result. -/
theorem completeAttempt_httpError (s : PanelState) (st : Nat) (text : String)
    (jb : JsonReadResult) (h : resOk st = false) :
    completeAttempt s (FetchOutcome.response st text jb) =
      { s with
          error := some ("HTTP " ++ toString st ++ ": " ++ text)
          result := Json.null
          isLoading := false } := by
  simp [completeAttempt, callApiResolve, callApiStart, h]

/-- A completed attempt on a transport error stores the error's description
and clears the result. -/
theorem completeAttempt_transport (s : PanelState) (d : String) :
    completeAttempt s (FetchOutcome.transportError d) =
      { s with error := some d, result := Json.null, isLoading := false } := by
  simp [completeAttempt, callApiResolve, callApiStart]

/-- Substring containment, witnessed by an explicit decomposition. -/
def containsSub (hay sub : String) : Prop := ∃ a b, hay = a ++ sub ++ b

/-- Resolutions that are a 2xx response whose body parses to JSON null. -/
def nullSuccess : FetchOutcome → Bool
  | FetchOutcome.response st _ (JsonReadResult.ok Json.null) => resOk st
  | _ => false

/-! ### Claims C1 – C5 -/

/-- C1 fails as stated: triggering an action from a state holding a prior
Success payload (here the number 1) synchronously sets Loading and clears
the error, but does NOT clear the prior result — lines 41–42 run only
setIsLoading(true) and setError(null), so the payload survives until the
request resolves. -/
theorem C1_counterexample :
    (step { backend := "http://localhost:3000", isLoading := false
          , result := Json.num 1, error := none }
        (PanelEvent.trigger PanelAction.listRecipes)).1.result = Json.num 1 ∧
    Json.num 1 ≠ Json.null :=
  ⟨rfl, fun h => Json.noConfusion h⟩

/-- C1 (amended): invoking any of the three triggers from any state
synchronously sets the loading flag and clears the prior error; the prior
result (and the backend) are left unchanged until the request resolves. -/
theorem C1_amended (s : PanelState) (a : PanelAction) :
    (step s (PanelEvent.trigger a)).1.isLoading = true ∧
    (step s (PanelEvent.trigger a)).1.error = none ∧
    (step s (PanelEvent.trigger a)).1.result = s.result ∧
    (step s (PanelEvent.trigger a)).1.backend = s.backend :=
  ⟨rfl, rfl, rfl, rfl⟩

/-- C2 fails as stated: a 200 response whose body is the JSON document
"null" parses to the JavaScript null, so the completed attempt leaves BOTH
result and error empty. -/
theorem C2_counterexample :
    (completeAttempt (initialState none)
        (FetchOutcome.response 200 "null" (JsonReadResult.ok Json.null))).result = Json.null ∧
    (completeAttempt (initialState none)
        (FetchOutcome.response 200 "null" (JsonReadResult.ok Json.null))).error = none :=
  ⟨rfl, rfl⟩

/-- C2 (amended): after any completed attempt whose resolution is not a 2xx
success with a JSON-null payload, exactly one of the two fields result /
error is non-empty. -/
theorem C2_amended (s : PanelState) (o : FetchOutcome) (h : nullSuccess o = false) :
    ((completeAttempt s o).result ≠ Json.null ∧ (completeAttempt s o).error = none) ∨
    ((completeAttempt s o).result = Json.null ∧ (completeAttempt s o).error ≠ none) := by
  cases o with
  | response st text jb =>
    cases jb with
    | ok j =>
      by_cases hok : resOk st = true
      · left
        have hj : j ≠ Json.null := by
          intro hj; subst hj; simp [nullSuccess, hok] at h
        rw [completeAttempt_ok s st text j hok]
        exact ⟨hj, rfl⟩
      · right
        rw [completeAttempt_httpError s st text _ (by simpa using hok)]
        exact ⟨rfl, fun hc => Option.noConfusion hc⟩
    | decodeError d =>
      by_cases hok : resOk st = true
      · right
        rw [completeAttempt_decodeError s st text d hok]
        exact ⟨rfl, fun hc => Option.noConfusion hc⟩
      · right
        rw [completeAttempt_httpError s st text _ (by simpa using hok)]
        exact ⟨rfl, fun hc => Option.noConfusion hc⟩
  | transportError d =>
    right
    rw [completeAttempt_transport s d]
    exact ⟨rfl, fun hc => Option.noConfusion hc⟩

/-- C2 witness: a completed attempt on a 404 leaves exactly the error
non-empty. -/
theorem C2_witness :
    nullSuccess (FetchOutcome.response 404 "not found" (JsonReadResult.ok Json.null)) = false ∧
    (((completeAttempt (initialState none)
          (FetchOutcome.response 404 "not found" (JsonReadResult.ok Json.null))).result ≠ Json.null ∧
      (completeAttempt (initialState none)
          (FetchOutcome.response 404 "not found" (JsonReadResult.ok Json.null))).error = none) ∨
     ((completeAttempt (initialState none)
          (FetchOutcome.response 404 "not found" (JsonReadResult.ok Json.null))).result = Json.null ∧
      (completeAttempt (initialState none)
          (FetchOutcome.response 404 "not found" (JsonReadResult.ok Json.null))).error ≠ none)) :=
  ⟨by decide, C2_amended (initialState none)
      (FetchOutcome.response 404 "not found" (JsonReadResult.ok Json.null)) (by decide)⟩

/-- C3: every non-2xx response resolves the attempt to Failure whose message
is exactly "HTTP <status>: <body text>" — hence contains both the numeric
status and the raw body text — with the result cleared and loading ended. -/
theorem C3_nonOk_failure (s : PanelState) (status : Nat) (text : String)
    (jb : JsonReadResult) (h : resOk status = false) :
    (completeAttempt s (FetchOutcome.response status text jb)).error
        = some ("HTTP " ++ toString status ++ ": " ++ text) ∧
    containsSub ("HTTP " ++ toString status ++ ": " ++ text) (toString status) ∧
    containsSub ("HTTP " ++ toString status ++ ": " ++ text) text ∧
    (completeAttempt s (FetchOutcome.response status text jb)).result = Json.null ∧
    (completeAttempt s (FetchOutcome.response status text jb)).isLoading = false := by
  rw [completeAttempt_httpError s status text jb h]
  refine ⟨rfl, ⟨"HTTP ", ": " ++ text, ?_⟩,
    ⟨"HTTP " ++ toString status ++ ": ", "", ?_⟩, rfl, rfl⟩
  · exact String.append_assoc ("HTTP " ++ toString status) ": " text
  · exact (String.append_empty ("HTTP " ++ toString status ++ ": " ++ text)).symm

/-- C3 witness: status 404 with body "not found" yields the failure message
"HTTP 404: not found". -/
theorem C3_witness :
    resOk 404 = false ∧
    ((completeAttempt (initialState none)
        (FetchOutcome.response 404 "not found" (JsonReadResult.decodeError ""))).error
        = some ("HTTP " ++ toString 404 ++ ": " ++ "not found") ∧
     containsSub ("HTTP " ++ toString 404 ++ ": " ++ "not found") (toString 404) ∧
     containsSub ("HTTP " ++ toString 404 ++ ": " ++ "not found") "not found" ∧
     (completeAttempt (initialState none)
        (FetchOutcome.response 404 "not found" (JsonReadResult.decodeError ""))).result = Json.null ∧
     (completeAttempt (initialState none)
        (FetchOutcome.response 404 "not found" (JsonReadResult.decodeError ""))).isLoading = false) :=
  ⟨by decide, C3_nonOk_failure (initialState none) 404 "not found"
      (JsonReadResult.decodeError "") (by decide)⟩

/-- Description of the error thrown before a body is successfully parsed: a
transport error's message, or — on a 2xx response — the body decode error's
message. -/
def underlyingErrorDesc : FetchOutcome → Option String
  | FetchOutcome.transportError d => some d
  | FetchOutcome.response st _ (JsonReadResult.decodeError d) =>
      if resOk st then some d else none
  | _ => none

/-- C4: every transport failure, and every 2xx response whose body fails to
parse as JSON, resolves the attempt to Failure whose message is the
underlying error's description, with the result cleared (even if a previous
Success payload was stored) and loading ended. -/
theorem C4_underlying_failure (s : PanelState) (o : FetchOutcome) (d : String)
    (h : underlyingErrorDesc o = some d) :
    (completeAttempt s o).error = some d ∧
    (completeAttempt s o).result = Json.null ∧
    (completeAttempt s o).isLoading = false := by
  cases o with
  | response st text jb =>
    cases jb with
    | ok j => simp [underlyingErrorDesc] at h
    | decodeError e =>
      by_cases hok : resOk st = true
      · have hd : e = d := by simpa [underlyingErrorDesc, hok] using h
        subst hd
        rw [completeAttempt_decodeError s st text e hok]
        exact ⟨rfl, rfl, rfl⟩
      · simp [underlyingErrorDesc, hok] at h
  | transportError e =>
    have hd : e = d := by simpa [underlyingErrorDesc] using h
    subst hd
    rw [completeAttempt_transport s e]
    exact ⟨rfl, rfl, rfl⟩

/-- C4 witness: a transport error with message "Failed to fetch", hitting a
state that still holds a previous Success payload, clears the payload and
stores that message. -/
theorem C4_witness :
    underlyingErrorDesc (FetchOutcome.transportError "Failed to fetch")
        = some "Failed to fetch" ∧
    ((completeAttempt { backend := "http://localhost:3000", isLoading := false
                      , result := Json.num 1, error := none }
        (FetchOutcome.transportError "Failed to fetch")).error = some "Failed to fetch" ∧
     (completeAttempt { backend := "http://localhost:3000", isLoading := false
                      , result := Json.num 1, error := none }
        (FetchOutcome.transportError "Failed to fetch")).result = Json.null ∧
     (completeAttempt { backend := "http://localhost:3000", isLoading := false
                      , result := Json.num 1, error := none }
        (FetchOutcome.transportError "Failed to fetch")).isLoading = false) :=
  ⟨rfl, C4_underlying_failure
      { backend := "http://localhost:3000", isLoading := false
      , result := Json.num 1, error := none }
      (FetchOutcome.transportError "Failed to fetch") "Failed to fetch" rfl⟩

/-- C5 fails as stated: a 200 response with body "0" parses, the attempt
resolves to Success with the payload 0 stored verbatim, yet the view renders
NO result block — 0 is JavaScript-falsy and line 136 renders the block only
for truthy results — rather than the pretty-printed payload. -/
theorem C5_counterexample :
    (completeAttempt (initialState none)
        (FetchOutcome.response 200 "0" (JsonReadResult.ok (Json.num 0)))).result = Json.num 0 ∧
    (renderPanel (completeAttempt (initialState none)
        (FetchOutcome.response 200 "0" (JsonReadResult.ok (Json.num 0))))).resultBlock = none ∧
    (renderPanel (completeAttempt (initialState none)
        (FetchOutcome.response 200 "0" (JsonReadResult.ok (Json.num 0))))).resultBlock
      ≠ some (jsonStringifyPretty (Json.num 0)) := by
  refine ⟨rfl, rfl, ?_⟩
  intro hc
  exact Option.noConfusion (by exact hc)

/-- C5 (amended): every 2xx response whose body parses as JSON resolves the
attempt to Success with the parsed value stored verbatim and no error; the
result block shows the value pretty-printed as JSON with 2-space indentation
exactly when the value is JavaScript-truthy, and is absent for the falsy
payloads null, false, 0 and the empty string. -/
theorem C5_amended (s : PanelState) (st : Nat) (text : String) (j : Json)
    (h : resOk st = true) :
    (completeAttempt s (FetchOutcome.response st text (JsonReadResult.ok j))).result = j ∧
    (completeAttempt s (FetchOutcome.response st text (JsonReadResult.ok j))).error = none ∧
    (completeAttempt s (FetchOutcome.response st text (JsonReadResult.ok j))).isLoading = false ∧
    (renderPanel (completeAttempt s
        (FetchOutcome.response st text (JsonReadResult.ok j)))).resultBlock
      = (if jsTruthy j then some (jsonStringifyPretty j) else none) := by
  rw [completeAttempt_ok s st text j h]
  exact ⟨rfl, rfl, rfl, rfl⟩

/-- C5 witness: the specification's own example — a 200 response whose body
is the array with one soup object — is stored verbatim and rendered
pretty-printed with 2-space indentation. -/
theorem C5_witness :
    resOk 200 = true ∧
    ((completeAttempt (initialState none)
        (FetchOutcome.response 200 "[\x7b\"id\":1,\"name\":\"Soup\"\x7d]"
          (JsonReadResult.ok (Json.arr [Json.obj [("id", Json.num 1), ("name", Json.str "Soup")]])))).result
        = Json.arr [Json.obj [("id", Json.num 1), ("name", Json.str "Soup")]] ∧
     (completeAttempt (initialState none)
        (FetchOutcome.response 200 "[\x7b\"id\":1,\"name\":\"Soup\"\x7d]"
          (JsonReadResult.ok (Json.arr [Json.obj [("id", Json.num 1), ("name", Json.str "Soup")]])))).error
        = none ∧
     (completeAttempt (initialState none)
        (FetchOutcome.response 200 "[\x7b\"id\":1,\"name\":\"Soup\"\x7d]"
          (JsonReadResult.ok (Json.arr [Json.obj [("id", Json.num 1), ("name", Json.str "Soup")]])))).isLoading
        = false ∧
     (renderPanel (completeAttempt (initialState none)
        (FetchOutcome.response 200 "[\x7b\"id\":1,\"name\":\"Soup\"\x7d]"
          (JsonReadResult.ok (Json.arr [Json.obj [("id", Json.num 1), ("name", Json.str "Soup")]]))))).resultBlock
        = (if jsTruthy (Json.arr [Json.obj [("id", Json.num 1), ("name", Json.str "Soup")]])
           then some (jsonStringifyPretty (Json.arr [Json.obj [("id", Json.num 1), ("name", Json.str "Soup")]]))
           else none)) :=
  ⟨rfl, C5_amended (initialState none) 200 "[\x7b\"id\":1,\"name\":\"Soup\"\x7d]"
      (Json.arr [Json.obj [("id", Json.num 1), ("name", Json.str "Soup")]]) rfl⟩

/-! ### Claims C6 – C10 -/

/-- C6: for every backend address b and every date string d, the derived
endpoint set maps list-recipes and create-recipe to b ++ "/api/recipes" and
weekly-plan to b ++ "/api/weeks/" ++ d ++ "/plan"; and because the set is a
pure function of the backend, any action triggered after a backend write
dispatches against the endpoints of the new backend. -/
theorem C6_endpoints (b d : String) :
    (endpoints b).listRecipes = b ++ "/api/recipes" ∧
    (endpoints b).createRecipe = b ++ "/api/recipes" ∧
    (endpoints b).weeklyPlan d = b ++ "/api/weeks/" ++ d ++ "/plan" ∧
    (∀ (s : PanelState) (a : PanelAction),
      (step { s with backend := b } (PanelEvent.trigger a)).2 = some (actionRequest b a)) :=
  ⟨rfl, rfl, rfl, fun _ _ => rfl⟩

/-- C7: from every backend address, the create-recipe action dispatches a
POST carrying the Content-Type: application/json header and the fixed
serialized sample recipe — an object with a name, a free-text steps field,
and an array of ingredient objects each having a name, a numeric quantity
and a unit code. -/
theorem C7_createRecipe_request (b : String) :
    (actionRequest b PanelAction.createRecipe).method = "POST" ∧
    (actionRequest b PanelAction.createRecipe).headers
        = [("Content-Type", "application/json")] ∧
    (actionRequest b PanelAction.createRecipe).body = some (jsonStringify sampleRecipe) ∧
    (∃ n st ings, sampleRecipe = Json.obj
        [("name", Json.str n), ("steps", Json.str st), ("ingredients", Json.arr ings)] ∧
      ∀ i ∈ ings, ∃ nm q u,
        i = Json.obj [("name", Json.str nm), ("quantity", Json.num q), ("unit", Json.str u)]) := by
  refine ⟨rfl, rfl, rfl, "Miso Soup", "Boil dashi, add miso.",
    [Json.obj [("name", Json.str "miso"), ("quantity", Json.num 30), ("unit", Json.str "GRAM")]],
    rfl, ?_⟩
  intro i hi
  rw [List.mem_singleton] at hi
  exact ⟨"miso", 30, "GRAM", hi⟩

/-- C8: a backend write (from the dropdown or the free-text input) dispatches
no request and leaves the loading flag, result and error untouched; the most
recent write wins, and the next triggered action uses exactly the endpoint
built from that latest value. -/
theorem C8_setBackend_frame (s : PanelState) (v w : String) (a : PanelAction) :
    step s (PanelEvent.setBackend v) = ({ s with backend := v }, none) ∧
    (step s (PanelEvent.setBackend v)).1.isLoading = s.isLoading ∧
    (step s (PanelEvent.setBackend v)).1.result = s.result ∧
    (step s (PanelEvent.setBackend v)).1.error = s.error ∧
    (run s [PanelEvent.setBackend v, PanelEvent.setBackend w]).backend = w ∧
    (step (run s [PanelEvent.setBackend v, PanelEvent.setBackend w])
        (PanelEvent.trigger a)).2 = some (actionRequest w a) :=
  ⟨rfl, rfl, rfl, rfl, rfl, rfl⟩

/-- Classification of the concrete outcome fields as the Idle abstract
state: not loading, no error, null result — exactly the initial values of
the three outcome hooks. -/
def idleOutcome (s : PanelState) : Prop :=
  s.isLoading = false ∧ s.error = none ∧ s.result = Json.null

/-- Events whose resolution is a 2xx success carrying a JSON-null payload. -/
def nullSuccessEvent : PanelEvent → Bool
  | PanelEvent.resolve o => nullSuccess o
  | _ => false

/-- States that are distinguishable from Idle: loading, or a live error, or
a non-null result. -/
def live (s : PanelState) : Prop :=
  s.isLoading = true ∨ s.error ≠ none ∨ s.result ≠ Json.null

/-- Every event other than a JSON-null success resolution preserves
distinguishability from Idle. -/
theorem live_step (t : PanelState) (e : PanelEvent)
    (he : nullSuccessEvent e = false) (ht : live t) : live (step t e).1 := by
  cases e with
  | setBackend v =>
    rcases ht with h | h | h
    · exact Or.inl h
    · exact Or.inr (Or.inl h)
    · exact Or.inr (Or.inr h)
  | trigger a => exact Or.inl rfl
  | resolve o =>
    cases o with
    | response st text jb =>
      by_cases hok : resOk st = true
      · cases jb with
        | ok j =>
          have hstep : (step t (PanelEvent.resolve
              (FetchOutcome.response st text (JsonReadResult.ok j)))).1
              = { t with result := j, isLoading := false } := by
            simp [step, callApiResolve, hok]
          rw [hstep]
          refine Or.inr (Or.inr ?_)
          intro hc
          rw [show ({ t with result := j, isLoading := false } : PanelState).result = j from rfl] at hc
          subst hc
          simp [nullSuccessEvent, nullSuccess, hok] at he
        | decodeError d =>
          have hstep : (step t (PanelEvent.resolve
              (FetchOutcome.response st text (JsonReadResult.decodeError d)))).1
              = { t with error := some d, result := Json.null, isLoading := false } := by
            simp [step, callApiResolve, hok]
          rw [hstep]
          exact Or.inr (Or.inl (fun hc => Option.noConfusion hc))
      · have hstep : (step t (PanelEvent.resolve
            (FetchOutcome.response st text jb))).1
            = { t with
                  error := some ("HTTP " ++ toString st ++ ": " ++ text)
                  result := Json.null
                  isLoading := false } := by
          simp [step, callApiResolve, hok]
        rw [hstep]
        exact Or.inr (Or.inl (fun hc => Option.noConfusion hc))
    | transportError d =>
      have hstep : (step t (PanelEvent.resolve (FetchOutcome.transportError d))).1
          = { t with error := some d, result := Json.null, isLoading := false } := by
        simp [step, callApiResolve]
      rw [hstep]
      exact Or.inr (Or.inl (fun hc => Option.noConfusion hc))

/-- Distinguishability from Idle is preserved along any event sequence free
of JSON-null success resolutions. -/
theorem live_run : ∀ (es : List PanelEvent) (t : PanelState),
    (∀ e ∈ es, nullSuccessEvent e = false) → live t → live (run t es)
  | [], _, _, ht => ht
  | e :: es, t, h, ht =>
      live_run es (step t e).1 (fun x hx => h x (List.mem_cons_of_mem e hx))
        (live_step t e (h e (List.mem_cons_self e es)) ht)

/-- C9 fails as stated: after triggering an action from the initial state, a
200 resolution whose body is the JSON document "null" returns the panel to a
state equal to the initial Idle state (not loading, no error, null result). -/
theorem C9_counterexample :
    run (step (initialState none) (PanelEvent.trigger PanelAction.listRecipes)).1
        [PanelEvent.resolve (FetchOutcome.response 200 "null" (JsonReadResult.ok Json.null))]
      = initialState none ∧
    (initialState none).isLoading = false ∧
    (initialState none).error = none ∧
    (initialState none).result = Json.null :=
  ⟨rfl, rfl, rfl, rfl⟩

/-- C9 (amended): once an action has been taken, the panel never returns to
the Idle state along any sequence of events that contains no 2xx resolution
carrying a JSON-null payload — every reachable state is Loading, Success or
Failure. -/
theorem C9_amended (s : PanelState) (a : PanelAction) (es : List PanelEvent)
    (h : ∀ e ∈ es, nullSuccessEvent e = false) :
    ¬ idleOutcome (run (step s (PanelEvent.trigger a)).1 es) := by
  have hl : live (run (step s (PanelEvent.trigger a)).1 es) :=
    live_run es (step s (PanelEvent.trigger a)).1 h (Or.inl rfl)
  intro hi
  rcases hl with h1 | h2 | h3
  · rw [hi.1] at h1; exact Bool.noConfusion h1
  · exact h2 hi.2.1
  · exact h3 hi.2.2

/-- C9 witness: a trigger followed by a 404 resolution never shows Idle. -/
theorem C9_witness :
    (∀ e ∈ [PanelEvent.resolve
        (FetchOutcome.response 404 "not found" (JsonReadResult.ok Json.null))],
      nullSuccessEvent e = false) ∧
    ¬ idleOutcome (run (step (initialState none)
        (PanelEvent.trigger PanelAction.listRecipes)).1
        [PanelEvent.resolve
          (FetchOutcome.response 404 "not found" (JsonReadResult.ok Json.null))]) :=
  ⟨by decide, C9_amended (initialState none) PanelAction.listRecipes
      [PanelEvent.resolve
        (FetchOutcome.response 404 "not found" (JsonReadResult.ok Json.null))]
      (by decide)⟩

/-- C10: selecting the Custom… option writes the literal string "custom" to
the backend, so until the free-text field is edited the next triggered
action targets "custom/api/recipes" (list and create) or
"custom/api/weeks/2025-08-25/plan" (weekly plan). -/
theorem C10_custom_literal (s : PanelState) :
    (step s (PanelEvent.setBackend "custom")).1.backend = "custom" ∧
    (step (step s (PanelEvent.setBackend "custom")).1
        (PanelEvent.trigger PanelAction.listRecipes)).2
      = some { url := "custom/api/recipes", method := "GET", headers := [], body := none } ∧
    (step (step s (PanelEvent.setBackend "custom")).1
        (PanelEvent.trigger PanelAction.createRecipe)).2
      = some { url := "custom/api/recipes", method := "POST"
             , headers := [("Content-Type", "application/json")]
             , body := some (jsonStringify sampleRecipe) } ∧
    (step (step s (PanelEvent.setBackend "custom")).1
        (PanelEvent.trigger PanelAction.weeklyPlan)).2
      = some { url := "custom/api/weeks/2025-08-25/plan", method := "GET"
             , headers := [], body := none } :=
  ⟨rfl, rfl, rfl, rfl⟩
